import Mathlib

/-!
Shallow embedding of the kompanion book library core: the postgres-backed
catalog repository (`book_postgres.go`) and the `BookShelf` service
(`bookshelf` use case file).  Databases and the blob store are modelled as
explicit state (`St`), external call outcomes (hash computation, metadata
extraction, backend failures) as an environment record (`Env`), and Go
errors as the inductive `KErr` mirroring wrapping via `fmt.Errorf("%w")`.
-/

/-- `entity.Book`: one catalog row plus the in-memory `Format` field. -/
structure Book where
  id : String
  title : String
  author : String
  publisher : String
  year : Int
  createdAt : Nat
  updatedAt : Nat
  isbn : String
  documentID : String
  filePath : String
  format : String
  coverPath : String
deriving Repr, DecidableEq, Inhabited

/-- The Go zero value `entity.Book{}`. -/
def emptyBook : Book :=
  { id := "", title := "", author := "", publisher := "", year := 0,
    createdAt := 0, updatedAt := 0, isbn := "", documentID := "",
    filePath := "", format := "", coverPath := "" }

/-- Go `error` values as the code distinguishes them: backend failures,
empty-result scans, the sentinel `entity.ErrBookAlreadyExists`, plain
`errors.New` messages, and `fmt.Errorf("ctx: %w", e)` wrapping. -/
inductive KErr where
  | backend (msg : String)
  | noRows
  | bookAlreadyExists
  | plain (msg : String)
  | wrapped (ctx : String) (e : KErr)
deriving Repr, DecidableEq

/-- Decidable equality for `Except`, used to evaluate repository results on
concrete inputs. -/
instance {e a : Type} [DecidableEq e] [DecidableEq a] : DecidableEq (Except e a) :=
  fun x y =>
    match x, y with
    | .ok u, .ok v => decidable_of_iff (u = v) (by simp)
    | .error u, .error v => decidable_of_iff (u = v) (by simp)
    | .ok _, .error _ => isFalse (by simp)
    | .error _, .ok _ => isFalse (by simp)

/-- Result record of `metadata.ExtractBookMetadata`. -/
structure BookMetadata where
  title : String
  author : String
  publisher : String
  isbn : String
  cover : List Nat
  format : String
deriving Repr, DecidableEq, Inhabited

/-- Catalog table (ordered rows) plus the set of blob-store keys written. -/
structure St where
  catalog : List Book
  blobs : List String
deriving Repr, DecidableEq, Inhabited

/-! ## Catalog repository (`book_postgres.go`) -/

/-- The uniqueness constraints on `library_book`: primary key `id` and the
unique index on `koreader_partial_md5` (the content fingerprint). -/
def isDuplicateKey (cat : List Book) (book : Book) : Bool :=
  cat.any (fun b => b.id == book.id || b.documentID == book.documentID)

/-- `BookDatabaseRepo.Store`: INSERT one row; a duplicate-key violation is
translated into the wrapped `ErrBookAlreadyExists`; any other exec failure
is wrapped opaquely; on success exactly one row is appended. -/
def repoStore (backendFails : Bool) (cat : List Book) (book : Book) :
    Option KErr × List Book :=
  if isDuplicateKey cat book then
    (some (.wrapped "BookDatabaseRepo - Store - r.Pool.Exec" .bookAlreadyExists), cat)
  else if backendFails then
    (some (.wrapped "BookDatabaseRepo - Store - r.Pool.Exec" (.backend "exec")), cat)
  else
    (none, cat ++ [book])

/-- Effect of the UPDATE statement on one matched row: only the six columns
title, author, publisher, year, updated_at, isbn are written. -/
def dbApplyUpdate (existing incoming : Book) : Book :=
  { existing with
      title := incoming.title, author := incoming.author,
      publisher := incoming.publisher, year := incoming.year,
      updatedAt := incoming.updatedAt, isbn := incoming.isbn }

/-- `BookDatabaseRepo.Update`: UPDATE ... WHERE id = book.ID; a failing exec
is wrapped; zero affected rows is the "no rows affected" error. -/
def repoUpdate (backendFails : Bool) (cat : List Book) (book : Book) :
    Option KErr × List Book :=
  if backendFails then
    (some (.wrapped "BookDatabaseRepo - Update - r.Pool.Exec" (.backend "exec")), cat)
  else if cat.any (fun b => b.id == book.id) then
    (none, cat.map (fun b => if b.id == book.id then dbApplyUpdate b book else b))
  else
    (some (.plain "BookDatabaseRepo - Update - no rows affected"), cat)

/-- `BookDatabaseRepo.GetById`: point lookup, empty scan surfaces an error. -/
def repoGetById (cat : List Book) (id : String) : Except KErr Book :=
  match cat.find? (fun b => b.id == id) with
  | some b => .ok b
  | none => .error (.wrapped "BookDatabaseRepo - Get - r.Pool.QueryRow" .noRows)

/-- `BookDatabaseRepo.GetByFileHash`: lookup by fingerprint; the backend can
also fail (query error), modelled by the `backendFails` flag. -/
def repoGetByFileHash (backendFails : Bool) (cat : List Book) (fileHash : String) :
    Except KErr Book :=
  if backendFails then
    .error (.wrapped "BookDatabaseRepo - GetByFileHash - r.Pool.QueryRow" (.backend "query"))
  else
    match cat.find? (fun b => b.documentID == fileHash) with
    | some b => .ok b
    | none => .error (.wrapped "BookDatabaseRepo - GetByFileHash - r.Pool.QueryRow" .noRows)

/-- The whitelisted ORDER BY columns of `List`/`Search`. -/
def sortColumns : List String :=
  ["title", "author", "publisher", "year", "created_at", "updated_at", "isbn"]

/-- The sortBy switch: unrecognized column falls back to created_at. -/
def sanitizeSortBy (s : String) : String :=
  if s ∈ sortColumns then s else "created_at"

/-- The sortOrder switch: anything but asc/desc falls back to desc. -/
def sanitizeSortOrder (s : String) : String :=
  if s = "asc" ∨ s = "desc" then s else "desc"

/-- `if page <= 0 { page = 1 }`. -/
def sanitizePage (p : Int) : Int := if p ≤ 0 then 1 else p

/-- `if perPage <= 0 || perPage > 100 { perPage = 25 }`. -/
def sanitizePerPage (p : Int) : Int := if p ≤ 0 ∨ p > 100 then 25 else p

/-- Column comparison used to model ORDER BY on a whitelisted column. -/
def bookLeBy (col : String) (a b : Book) : Bool :=
  match col with
  | "title" => decide (a.title ≤ b.title)
  | "author" => decide (a.author ≤ b.author)
  | "publisher" => decide (a.publisher ≤ b.publisher)
  | "year" => decide (a.year ≤ b.year)
  | "updated_at" => decide (a.updatedAt ≤ b.updatedAt)
  | "isbn" => decide (a.isbn ≤ b.isbn)
  | _ => decide (a.createdAt ≤ b.createdAt)

/-- ORDER BY sortBy sortOrder, as a deterministic sort of the row list. -/
def sortBooks (sortBy sortOrder : String) (rows : List Book) : List Book :=
  if sortOrder = "asc" then
    rows.insertionSort (fun a b => bookLeBy sortBy a b = true)
  else
    rows.insertionSort (fun a b => bookLeBy sortBy b a = true)

/-- Reduction of an integer into Go's 64-bit machine-int range
[-2^63, 2^63): arithmetic on Go `int` wraps modulo 2^64. -/
def goInt (n : Int) : Int := (n + 2 ^ 63) % 2 ^ 64 - 2 ^ 63

/-- `BookDatabaseRepo.List`: sanitize sort and pagination exactly as the Go
switch/if chain does, then ORDER BY, OFFSET (page-1)*perPage, LIMIT perPage.
The page parameters are Go `int` values (hence passed through `goInt`), and
the offset product `(page-1)*perPage` is computed in machine-int arithmetic,
so it wraps; a wrapped-negative offset reaches Postgres as `OFFSET -n`,
which the engine rejects, surfacing as a query error (the Go caller then
prepends the operation name to the message, which affects no behaviour). -/
def repoList (cat : List Book) (sortBy sortOrder : String) (page perPage : Int) :
    Except KErr (List Book) :=
  let sortOrder := sanitizeSortOrder sortOrder
  let sortBy := sanitizeSortBy sortBy
  let page := sanitizePage (goInt page)
  let perPage := sanitizePerPage (goInt perPage)
  let offset := goInt ((page - 1) * perPage)
  if offset < 0 then .error (.backend "OFFSET must not be negative")
  else
    .ok (((sortBooks sortBy sortOrder cat).drop offset.toNat).take perPage.toNat)

/-- Lowercasing a string, character by character. -/
def strLower (s : String) : List Char := s.toList.map Char.toLower

/-- `field ILIKE '%' || query || '%'`: case-insensitive substring match. -/
def iLike (field query : String) : Bool :=
  decide (strLower query <:+: strLower field)

/-- The WHERE clause of `Search`/`CountSearch`: any of the four columns
case-insensitively contains the query. -/
def matchesQuery (query : String) (b : Book) : Bool :=
  iLike b.title query || iLike b.author query || iLike b.publisher query ||
    iLike b.isbn query

/-- `BookDatabaseRepo.Search`: same sanitization and machine-int offset
arithmetic as `List`, restricted by the ILIKE predicate before ordering and
pagination. -/
def repoSearch (cat : List Book) (query sortBy sortOrder : String)
    (page perPage : Int) : Except KErr (List Book) :=
  let sortOrder := sanitizeSortOrder sortOrder
  let sortBy := sanitizeSortBy sortBy
  let page := sanitizePage (goInt page)
  let perPage := sanitizePerPage (goInt perPage)
  let offset := goInt ((page - 1) * perPage)
  if offset < 0 then .error (.backend "OFFSET must not be negative")
  else
    .ok (((sortBooks sortBy sortOrder (cat.filter (matchesQuery query))).drop
        offset.toNat).take perPage.toNat)

/-- `BookDatabaseRepo.CountSearch`: COUNT(*) under the same WHERE clause. -/
def repoCountSearch (cat : List Book) (query : String) : Nat :=
  (cat.filter (matchesQuery query)).length

/-- `BookDatabaseRepo.Count`: SELECT count(*). -/
def repoCount (cat : List Book) : Nat := cat.length

/-! ## BookShelf service -/

/-- Outcomes of the external collaborators during one `StoreBook` run:
the partial-MD5 fingerprint computation, the dedup-lookup backend, the
metadata extractor, the generated UUIDv7, the ingestion date, clock, and
the success of each blob write and of the catalog INSERT. -/
structure Env where
  fileMD5 : Except KErr String
  hashLookupFails : Bool
  extract : Except KErr BookMetadata
  bookID : String
  dateStr : String
  now : Nat
  primaryWriteOk : Bool
  coverTempOk : Bool
  coverWriteOk : Bool
  storeFails : Bool
deriving Repr, Inhabited

/-- `storage.Write(ctx, src, path)`: on success the key is recorded. -/
def storageWrite (ok : Bool) (st : St) (path : String) : Option KErr × St :=
  if ok then (none, { st with blobs := st.blobs ++ [path] })
  else (some (.plain "storage write failed"), st)

/-- `storage.Read(ctx, path)`: the returned handle is modelled by the key. -/
def storageRead (ok : Bool) (path : String) : Except KErr String :=
  if ok then .ok path else .error (.plain "storage read failed")

/-- `writeCover`: empty cover bytes are a silent no-op; otherwise stage to a
temp file and write the blob under the fixed `covers/<id>.jpg` key. -/
def writeCover (env : Env) (st : St) (cover : List Nat) (bookID : String) :
    (String × Option KErr) × St :=
  if cover.length == 0 then (("", none), st)
  else if env.coverTempOk = false then
    (("", some (.plain "BookShelf - writeCover - temp file")), st)
  else
    match storageWrite env.coverWriteOk st ("covers/" ++ bookID ++ ".jpg") with
    | (none, st1) => (("covers/" ++ bookID ++ ".jpg", none), st1)
    | (some e, st1) =>
      (("", some (.wrapped "BookShelf - writeCover - s.storage.Write" e)), st1)

/-- The `entity.Book` struct literal `StoreBook` assembles before the
catalog `Store` call (year defaulted to 0, timestamps from the ingestion
date). -/
def assembleBook (env : Env) (m : BookMetadata) (hash coverPath storagepath : String) :
    Book :=
  { id := env.bookID, title := m.title, author := m.author,
    publisher := m.publisher, year := 0, createdAt := env.now,
    updatedAt := env.now, isbn := m.isbn, documentID := hash,
    filePath := storagepath, format := m.format, coverPath := coverPath }

/-- The post-dedup tail of `StoreBook`: extraction, format check, path
assignment, primary blob write, best-effort cover write (its error only
logged), record assembly (year defaulted to 0) and catalog `Store`. -/
def ingestBook (env : Env) (st : St) (hash : String) : (Book × Option KErr) × St :=
  match env.extract with
  | .error e =>
    ((emptyBook, some (.wrapped "BookShelf - StoreBook - exractMetadata" e)), st)
  | .ok m =>
    if m.format == "" then
      ((emptyBook, some (.plain "BookShelf - StoreBook - unknown file format")), st)
    else
      let storagepath := env.dateStr ++ "/" ++ env.bookID ++ "." ++ m.format
      match storageWrite env.primaryWriteOk st storagepath with
      | (some e, st1) =>
        ((emptyBook, some (.wrapped "BookShelf - StoreBook - s.storage.Write" e)), st1)
      | (none, st1) =>
        match writeCover env st1 m.cover env.bookID with
        | ((coverPath, _), st2) =>
          let book := assembleBook env m hash coverPath storagepath
          match repoStore env.storeFails st2.catalog book with
          | (some e, cat3) =>
            ((emptyBook, some (.wrapped "BookShelf - StoreBook - s.repo.Store" e)),
              { st2 with catalog := cat3 })
          | (none, cat3) => ((book, none), { st2 with catalog := cat3 })

/-- `BookShelf.StoreBook`: fingerprint, dedup check (`err == nil` means the
lookup succeeded and the found record is returned with
`ErrBookAlreadyExists`; every lookup error falls through), then ingestion. -/
def StoreBook (env : Env) (st : St) : (Book × Option KErr) × St :=
  match env.fileMD5 with
  | .error e =>
    ((emptyBook, some (.wrapped "BookShelf - StoreBook - PartialMD5" e)), st)
  | .ok hash =>
    match repoGetByFileHash env.hashLookupFails st.catalog hash with
    | .ok found => ((found, some .bookAlreadyExists), st)
    | .error _ => ingestBook env st hash

/-- The sparse merge of `UpdateBookMetadata`: title/author/publisher/year
only overwritten when non-zero in the patch; ISBN also overwritten (cleared)
when the patch ISBN is empty but the stored ISBN is not; updated_at always
refreshed. -/
def mergeMetadata (book patch : Book) (now : Nat) : Book :=
  let u0 := book
  let u1 := if patch.title ≠ "" then { u0 with title := patch.title } else u0
  let u2 := if patch.author ≠ "" then { u1 with author := patch.author } else u1
  let u3 :=
    if patch.publisher ≠ "" then { u2 with publisher := patch.publisher } else u2
  let u4 := if patch.year ≠ 0 then { u3 with year := patch.year } else u3
  let u5 :=
    if patch.isbn ≠ "" ∨ (patch.isbn = "" ∧ book.isbn ≠ "") then
      { u4 with isbn := patch.isbn }
    else u4
  { u5 with updatedAt := now }

/-- `BookShelf.UpdateBookMetadata`: fetch by ID, sparse-merge the patch,
persist via the repository `Update`. -/
def UpdateBookMetadata (updateFails : Bool) (now : Nat) (st : St)
    (bookID : String) (patch : Book) : (Book × Option KErr) × St :=
  match repoGetById st.catalog bookID with
  | .error e =>
    ((emptyBook, some (.wrapped "BookShelf - UpdateBookMetadata - s.repo.Get" e)), st)
  | .ok book =>
    let updatedBook := mergeMetadata book patch now
    match repoUpdate updateFails st.catalog updatedBook with
    | (some e, cat1) =>
      ((emptyBook, some (.wrapped "BookShelf - UpdateBookMetadata - s.repo.Update" e)),
        { st with catalog := cat1 })
    | (none, cat1) => ((updatedBook, none), { st with catalog := cat1 })

/-- A sequence of `UpdateBookMetadata` calls: each element carries the
backend-failure flag, the clock value, the target ID and the patch. -/
def applyMetadataUpdates (ops : List (Bool × Nat × String × Book)) (st : St) : St :=
  ops.foldl (fun s op => (UpdateBookMetadata op.1 op.2.1 s op.2.2.1 op.2.2.2).2) st

/-- `BookShelf.ViewCover`: fetch by ID, fail on empty cover path, otherwise
read the cover blob.  The second component lists the storage reads made. -/
def ViewCover (readOk : Bool) (st : St) (bookID : String) :
    Except KErr String × List String :=
  match repoGetById st.catalog bookID with
  | .error e => (.error (.wrapped "BookShelf - ViewCover - s.repo.Get" e), [])
  | .ok book =>
    if book.coverPath == "" then
      (.error (.plain "BookShelf - ViewCover - no cover"), [])
    else
      match storageRead readOk book.coverPath with
      | .error e =>
        (.error (.wrapped "BookShelf - ViewCover - s.storage.Read" e), [book.coverPath])
      | .ok f => (.ok f, [book.coverPath])

/-- The fields the repository UPDATE statement never writes: id, created_at,
fingerprint, primary storage path, cover path, format. -/
def immutKey (b : Book) : String × Nat × String × String × String × String :=
  (b.id, b.createdAt, b.documentID, b.filePath, b.coverPath, b.format)

/-! ## Concrete fixtures used by witnesses -/

/-- A concrete catalog row. -/
def sampleBook : Book :=
  { emptyBook with
    id := "b1"
    title := "Tt"
    isbn := "ISBN123"
    documentID := "h1"
    filePath := "p1"
    format := "epub"
    coverPath := "c1" }

/-- A concrete state holding `sampleBook`. -/
def sampleSt : St := ⟨[sampleBook], ["p1", "c1"]⟩

/-- A concrete extraction result. -/
def sampleMeta : BookMetadata :=
  { title := "T", author := "A", publisher := "P", isbn := "I",
    cover := [1], format := "epub" }

/-- A concrete all-successful environment whose fingerprint collides with
`sampleBook`. -/
def sampleEnv : Env :=
  { fileMD5 := .ok "h1", hashLookupFails := false, extract := .ok sampleMeta,
    bookID := "id2", dateStr := "2026/10/11", now := 7, primaryWriteOk := true,
    coverTempOk := true, coverWriteOk := true, storeFails := false }

/-! ## Claims -/

/-- C1: for every catalog state and every upload whose content fingerprint
already has a record in the catalog, `StoreBook` terminates at the dedup
check (before extraction: the result does not depend on `env.extract`) and
returns the existing record together with `ErrBookAlreadyExists`, leaving
the state untouched; and the repository `Store` call translates a
fingerprint-uniqueness violation into `AlreadyExists` without inserting a
second row, as the backstop. -/
theorem C1_duplicate_upload_already_exists
    (env : Env) (st : St) (hash : String) (found : Book)
    (hmd5 : env.fileMD5 = .ok hash)
    (hnb : env.hashLookupFails = false)
    (hfind : st.catalog.find? (fun b => b.documentID == hash) = some found) :
    StoreBook env st = ((found, some .bookAlreadyExists), st)
    ∧ ∀ (fails : Bool) (cat : List Book) (book : Book),
        (∃ b ∈ cat, b.documentID = book.documentID) →
        repoStore fails cat book
          = (some (.wrapped "BookDatabaseRepo - Store - r.Pool.Exec" .bookAlreadyExists),
             cat) := by
  constructor
  · unfold StoreBook
    rw [hmd5]
    unfold repoGetByFileHash
    rw [hnb]
    simp [hfind]
  · rintro fails cat book ⟨b, hb, hdoc⟩
    have hdup : isDuplicateKey cat book = true := by
      unfold isDuplicateKey
      rw [List.any_eq_true]
      exact ⟨b, hb, by simp [hdoc]⟩
    unfold repoStore
    simp [hdup]

/-- C1 witness at a concrete duplicate upload. -/
theorem C1_duplicate_upload_already_exists_witness :
    StoreBook sampleEnv sampleSt = ((sampleBook, some .bookAlreadyExists), sampleSt)
    ∧ repoStore false [sampleBook] sampleBook
      = (some (.wrapped "BookDatabaseRepo - Store - r.Pool.Exec" .bookAlreadyExists),
         [sampleBook]) := by
  have h := C1_duplicate_upload_already_exists sampleEnv sampleSt "h1" sampleBook
    rfl rfl (by decide)
  exact ⟨h.1, h.2 false [sampleBook] sampleBook ⟨sampleBook, by decide, rfl⟩⟩

/-- C7: when extraction succeeds but reports an empty format, `StoreBook`
fails with the unknown-format error and the state — in particular the blob
store — is untouched, whatever the storage backend would have done. -/
theorem C7_unknown_format_writes_no_blob
    (env : Env) (st : St) (hash : String) (m : BookMetadata)
    (hmd5 : env.fileMD5 = .ok hash)
    (hmiss : st.catalog.find? (fun b => b.documentID == hash) = none)
    (hex : env.extract = .ok m)
    (hfmt : m.format = "") :
    StoreBook env st
      = ((emptyBook, some (.plain "BookShelf - StoreBook - unknown file format")), st)
    ∧ (StoreBook env st).2.blobs = st.blobs := by
  have hlook : ∃ e, repoGetByFileHash env.hashLookupFails st.catalog hash = .error e := by
    unfold repoGetByFileHash
    cases env.hashLookupFails <;> simp [hmiss]
  obtain ⟨e, he⟩ := hlook
  have hmain : StoreBook env st
      = ((emptyBook, some (.plain "BookShelf - StoreBook - unknown file format")), st) := by
    simp only [StoreBook, hmd5, he, ingestBook, hex]
    simp [hfmt]
  exact ⟨hmain, by rw [hmain]⟩

/-- C7 witness: an upload detected with empty format on an empty catalog. -/
theorem C7_unknown_format_writes_no_blob_witness :
    StoreBook { sampleEnv with extract := .ok { sampleMeta with format := "" } } ⟨[], []⟩
      = ((emptyBook, some (.plain "BookShelf - StoreBook - unknown file format")),
         ⟨[], []⟩) := by
  exact (C7_unknown_format_writes_no_blob
    { sampleEnv with extract := .ok { sampleMeta with format := "" } }
    ⟨[], []⟩ "h1" { sampleMeta with format := "" } rfl (by decide) rfl rfl).1

/-- C8: `ViewCover` on a record with empty cover path fails with the
no-cover error and performs no storage read; with a non-empty cover path it
reads exactly that path and, when the read succeeds, returns its handle. -/
theorem C8_view_cover_no_cover
    (st : St) (bookID : String) (b : Book) (readOk : Bool)
    (hfind : st.catalog.find? (fun r => r.id == bookID) = some b) :
    (b.coverPath = "" →
      ViewCover readOk st bookID
        = (.error (.plain "BookShelf - ViewCover - no cover"), []))
    ∧ (b.coverPath ≠ "" →
        (ViewCover readOk st bookID).2 = [b.coverPath]
        ∧ (readOk = true →
            ViewCover readOk st bookID = (.ok b.coverPath, [b.coverPath]))) := by
  have hget : repoGetById st.catalog bookID = .ok b := by
    unfold repoGetById
    rw [hfind]
  constructor
  · intro hcp
    unfold ViewCover
    rw [hget]
    simp [hcp]
  · intro hcp
    have hb : (b.coverPath == "") = false := by
      simp [hcp]
    unfold ViewCover
    rw [hget]
    cases readOk <;> simp [hb, storageRead]

/-- C8 witness: a cover-less record and `sampleBook` with its cover. -/
theorem C8_view_cover_no_cover_witness :
    ViewCover true ⟨[{ sampleBook with coverPath := "" }], []⟩ "b1"
      = (.error (.plain "BookShelf - ViewCover - no cover"), [])
    ∧ ViewCover true sampleSt "b1" = (.ok "c1", ["c1"]) := by
  constructor
  · exact (C8_view_cover_no_cover ⟨[{ sampleBook with coverPath := "" }], []⟩ "b1"
      { sampleBook with coverPath := "" } true (by decide)).1 rfl
  · exact ((C8_view_cover_no_cover sampleSt "b1" sampleBook true (by decide)).2
      (by decide)).2 rfl

/-- C10: every error from the dedup lookup — backend failure as much as the
empty-result scan — makes `StoreBook` proceed with ingestion (the lookup
error is never surfaced at that step), and only a successful lookup
triggers the `AlreadyExists` early return. -/
theorem C10_lookup_error_treated_as_no_duplicate
    (env : Env) (st : St) (hash : String)
    (hmd5 : env.fileMD5 = .ok hash) :
    (∀ e, repoGetByFileHash env.hashLookupFails st.catalog hash = .error e →
        StoreBook env st = ingestBook env st hash)
    ∧ (env.hashLookupFails = true → StoreBook env st = ingestBook env st hash)
    ∧ ∀ found, repoGetByFileHash env.hashLookupFails st.catalog hash = .ok found →
        StoreBook env st = ((found, some .bookAlreadyExists), st) := by
  refine ⟨?_, ?_, ?_⟩
  · intro e he
    simp only [StoreBook, hmd5, he]
  · intro hb
    have he : repoGetByFileHash env.hashLookupFails st.catalog hash
        = .error (.wrapped "BookDatabaseRepo - GetByFileHash - r.Pool.QueryRow"
            (.backend "query")) := by
      unfold repoGetByFileHash
      rw [hb]
      simp
    simp only [StoreBook, hmd5, he]
  · intro found hf
    simp only [StoreBook, hmd5, hf]

/-- C10 witness: a failing lookup backend over a catalog that does contain
the fingerprint still ingests (here hitting the uniqueness backstop). -/
theorem C10_lookup_error_treated_as_no_duplicate_witness :
    StoreBook { sampleEnv with hashLookupFails := true } sampleSt
      = ingestBook { sampleEnv with hashLookupFails := true } sampleSt "h1" := by
  exact (C10_lookup_error_treated_as_no_duplicate
    { sampleEnv with hashLookupFails := true } sampleSt "h1" rfl).2.1 rfl

/-- Auxiliary: the empty query matches every row. -/
theorem matchesQuery_empty (b : Book) : matchesQuery "" b = true := by
  have h : iLike b.title "" = true := by
    unfold iLike strLower
    simp
  unfold matchesQuery
  rw [h]
  rfl

/-- C5: with the empty query, `Search` degenerates to `List` under the same
sort and pagination parameters, and `CountSearch` equals `Count`. -/
theorem C5_empty_query_search_equals_list
    (cat : List Book) (sortBy sortOrder : String) (page perPage : Int) :
    repoSearch cat "" sortBy sortOrder page perPage
      = repoList cat sortBy sortOrder page perPage
    ∧ repoCountSearch cat "" = repoCount cat := by
  have hf : cat.filter (matchesQuery "") = cat :=
    List.filter_eq_self.mpr (fun a _ => matchesQuery_empty a)
  constructor
  · unfold repoSearch repoList
    rw [hf]
  · unfold repoCountSearch repoCount
    rw [hf]

/-- Auxiliary: the UPDATE row effect never touches the immutable columns. -/
theorem immutKey_dbApplyUpdate (existing incoming : Book) :
    immutKey (dbApplyUpdate existing incoming) = immutKey existing := rfl

/-- Auxiliary: the repository Update preserves the immutable columns of
every row of the catalog. -/
theorem repoUpdate_immutKey (backendFails : Bool) (cat : List Book) (book : Book) :
    ((repoUpdate backendFails cat book).2).map immutKey = cat.map immutKey := by
  unfold repoUpdate
  split
  · rfl
  · split
    · rw [List.map_map]
      refine List.map_congr_left (fun a _ => ?_)
      dsimp only [Function.comp]
      split <;> rfl
    · rfl

/-- Auxiliary: one `UpdateBookMetadata` call preserves the immutable columns
of every catalog row. -/
theorem updateBookMetadata_immutKey (updateFails : Bool) (now : Nat) (st : St)
    (bookID : String) (patch : Book) :
    (((UpdateBookMetadata updateFails now st bookID patch).2).catalog).map immutKey
      = st.catalog.map immutKey := by
  unfold UpdateBookMetadata
  cases hg : repoGetById st.catalog bookID with
  | error e => rfl
  | ok book =>
    have h2 := repoUpdate_immutKey updateFails st.catalog (mergeMetadata book patch now)
    rcases hru : repoUpdate updateFails st.catalog (mergeMetadata book patch now)
      with ⟨o, cat1⟩
    rw [hru] at h2
    simp only [hru]
    cases o <;> simpa using h2

/-- C9: the repository UPDATE statement writes only the title, author,
publisher, year, updated_at and isbn columns, so a record's ID, creation
timestamp, content fingerprint, primary storage path, cover path and format
survive every sequence of `UpdateBookMetadata` calls unchanged. -/
theorem C9_updates_preserve_immutable_fields
    (ops : List (Bool × Nat × String × Book)) (st : St) :
    ((applyMetadataUpdates ops st).catalog).map immutKey = st.catalog.map immutKey
    ∧ ∀ (backendFails : Bool) (cat : List Book) (book : Book),
        ((repoUpdate backendFails cat book).2).map immutKey = cat.map immutKey := by
  refine ⟨?_, repoUpdate_immutKey⟩
  induction ops generalizing st with
  | nil => rfl
  | cons op rest ih =>
    calc ((applyMetadataUpdates (op :: rest) st).catalog).map immutKey
        = ((applyMetadataUpdates rest
            ((UpdateBookMetadata op.1 op.2.1 st op.2.2.1 op.2.2.2).2)).catalog).map
              immutKey := rfl
      _ = (((UpdateBookMetadata op.1 op.2.1 st op.2.2.1 op.2.2.2).2).catalog).map
              immutKey := ih _
      _ = st.catalog.map immutKey :=
          updateBookMetadata_immutKey op.1 op.2.1 st op.2.2.1 op.2.2.2

/-- Auxiliary: the sparse merge never changes the record ID. -/
theorem mergeMetadata_id (b patch : Book) (now : Nat) :
    (mergeMetadata b patch now).id = b.id := by
  unfold mergeMetadata
  repeat' split
  all_goals rfl

/-- Auxiliary: with an empty patch ISBN the merged record's ISBN is empty,
whether it was cleared (record ISBN non-empty) or left alone (empty). -/
theorem mergeMetadata_isbn_of_empty (b patch : Book) (now : Nat)
    (hi : patch.isbn = "") :
    (mergeMetadata b patch now).isbn = "" := by
  unfold mergeMetadata
  repeat' split
  all_goals simp_all

/-- Auxiliary: an all-empty patch merges to the original record with the
timestamp refreshed and the ISBN cleared. -/
theorem mergeMetadata_empty_patch (b patch : Book) (now : Nat)
    (ht : patch.title = "") (ha : patch.author = "") (hp : patch.publisher = "")
    (hy : patch.year = 0) (hi : patch.isbn = "") :
    mergeMetadata b patch now = { b with updatedAt := now, isbn := "" } := by
  unfold mergeMetadata
  repeat' split
  all_goals simp_all

/-- C2 counterexample: on a record whose ISBN is "ISBN123", the all-empty
patch does not leave every field but updated_at unchanged — it also clears
the ISBN (second conjunct shows the actual result). -/
theorem C2_counterexample_isbn_cleared :
    ¬ ((UpdateBookMetadata false 5 sampleSt "b1" emptyBook).2).catalog
        = [{ sampleBook with updatedAt := 5 }]
    ∧ ((UpdateBookMetadata false 5 sampleSt "b1" emptyBook).2).catalog
        = [{ sampleBook with updatedAt := 5, isbn := "" }] := by decide

/-- C2 amended: an all-empty/zero patch refreshes updated_at, clears the
ISBN (a no-op when the stored ISBN was already empty) and leaves every
other field of the stored record unchanged. -/
theorem C2_empty_patch_refreshes_timestamp
    (st : St) (bookID : String) (b patch : Book) (now : Nat)
    (hfind : st.catalog.find? (fun r => r.id == bookID) = some b)
    (huniq : ∀ r ∈ st.catalog, r.id = bookID → r = b)
    (ht : patch.title = "") (ha : patch.author = "") (hp : patch.publisher = "")
    (hy : patch.year = 0) (hi : patch.isbn = "") :
    UpdateBookMetadata false now st bookID patch
      = (({ b with updatedAt := now, isbn := "" }, none),
         ⟨st.catalog.map (fun r =>
            if r.id = bookID then { b with updatedAt := now, isbn := "" } else r),
          st.blobs⟩) := by
  have hget : repoGetById st.catalog bookID = .ok b := by
    unfold repoGetById
    rw [hfind]
  have hbid : b.id = bookID := by
    have := List.find?_some hfind
    simpa using this
  have hbmem : b ∈ st.catalog := List.mem_of_find?_eq_some hfind
  have hmerge := mergeMetadata_empty_patch b patch now ht ha hp hy hi
  have hany : (st.catalog.any fun r =>
      r.id == ({ b with updatedAt := now, isbn := "" } : Book).id) = true := by
    rw [List.any_eq_true]
    exact ⟨b, hbmem, by simp⟩
  have hrepo : repoUpdate false st.catalog { b with updatedAt := now, isbn := "" }
      = (none, st.catalog.map fun r =>
          if r.id == ({ b with updatedAt := now, isbn := "" } : Book).id then
            dbApplyUpdate r { b with updatedAt := now, isbn := "" }
          else r) := by
    unfold repoUpdate
    simp [hany]
  have hmap : (st.catalog.map fun r =>
      if r.id == ({ b with updatedAt := now, isbn := "" } : Book).id then
        dbApplyUpdate r { b with updatedAt := now, isbn := "" }
      else r)
      = st.catalog.map fun r =>
          if r.id = bookID then { b with updatedAt := now, isbn := "" } else r := by
    refine List.map_congr_left fun r hr => ?_
    by_cases h0 : r.id = bookID
    · have hrb : r = b := huniq r hr h0
      subst hrb
      simp [h0, dbApplyUpdate]
    · simp [hbid, h0]
  simp only [UpdateBookMetadata, hget, hmerge, hrepo, hmap]

/-- C2 witness: the amended behaviour at the concrete fixture. -/
theorem C2_empty_patch_refreshes_timestamp_witness :
    UpdateBookMetadata false 5 sampleSt "b1" emptyBook
      = (({ sampleBook with updatedAt := 5, isbn := "" }, none),
         ⟨[{ sampleBook with updatedAt := 5, isbn := "" }], ["p1", "c1"]⟩) := by
  have h := C2_empty_patch_refreshes_timestamp sampleSt "b1" sampleBook emptyBook 5
    (by decide) (by decide) rfl rfl rfl rfl rfl
  rw [h]
  decide

/-- C3: a patch whose ISBN is the empty string makes the persisted ISBN
empty: it clears a non-empty stored ISBN and leaves an empty one empty, and
the returned record agrees. -/
theorem C3_empty_patch_isbn_clears
    (st : St) (bookID : String) (b patch : Book) (now : Nat)
    (hfind : st.catalog.find? (fun r => r.id == bookID) = some b)
    (hi : patch.isbn = "") :
    ((UpdateBookMetadata false now st bookID patch).1.1).isbn = ""
    ∧ ∀ r ∈ ((UpdateBookMetadata false now st bookID patch).2).catalog,
        r.id = b.id → r.isbn = "" := by
  have hget : repoGetById st.catalog bookID = .ok b := by
    unfold repoGetById
    rw [hfind]
  have hbmem : b ∈ st.catalog := List.mem_of_find?_eq_some hfind
  have hub_id : (mergeMetadata b patch now).id = b.id := mergeMetadata_id b patch now
  have hub_isbn : (mergeMetadata b patch now).isbn = "" :=
    mergeMetadata_isbn_of_empty b patch now hi
  have hany : (st.catalog.any fun r => r.id == (mergeMetadata b patch now).id) = true := by
    rw [List.any_eq_true]
    exact ⟨b, hbmem, by simp [hub_id]⟩
  have hrepo : repoUpdate false st.catalog (mergeMetadata b patch now)
      = (none, st.catalog.map fun r =>
          if r.id == (mergeMetadata b patch now).id then
            dbApplyUpdate r (mergeMetadata b patch now)
          else r) := by
    unfold repoUpdate
    simp [hany]
  constructor
  · simp only [UpdateBookMetadata, hget, hrepo]
    exact hub_isbn
  · intro r hr hrid
    simp only [UpdateBookMetadata, hget, hrepo] at hr
    obtain ⟨r0, hr0, rfl⟩ := List.mem_map.mp hr
    by_cases h0 : (r0.id == (mergeMetadata b patch now).id) = true
    · simp [h0, dbApplyUpdate, hub_isbn]
    · simp [h0] at hrid
      exact absurd (show (r0.id == (mergeMetadata b patch now).id) = true by
        simp [hrid, hub_id]) h0

/-- C3 witness: clearing "ISBN123" and the no-op on an already-empty ISBN. -/
theorem C3_empty_patch_isbn_clears_witness :
    ((UpdateBookMetadata false 5 sampleSt "b1" emptyBook).1.1).isbn = ""
    ∧ ((UpdateBookMetadata false 5
          ⟨[{ sampleBook with isbn := "" }], []⟩ "b1" emptyBook).1.1).isbn = "" := by
  constructor
  · exact (C3_empty_patch_isbn_clears sampleSt "b1" sampleBook emptyBook 5
      (by decide) rfl).1
  · exact (C3_empty_patch_isbn_clears ⟨[{ sampleBook with isbn := "" }], []⟩ "b1"
      { sampleBook with isbn := "" } emptyBook 5 (by decide) rfl).1

/-- Auxiliary: the sortBy fallback is idempotent. -/
theorem sanitizeSortBy_idem (s : String) :
    sanitizeSortBy (sanitizeSortBy s) = sanitizeSortBy s := by
  by_cases h : s ∈ sortColumns <;> simp [sanitizeSortBy, h]

/-- Auxiliary: the sortOrder fallback is idempotent. -/
theorem sanitizeSortOrder_idem (s : String) :
    sanitizeSortOrder (sanitizeSortOrder s) = sanitizeSortOrder s := by
  by_cases h : s = "asc" ∨ s = "desc" <;> simp [sanitizeSortOrder, h]

/-- Auxiliary: the page fallback is idempotent. -/
theorem sanitizePage_idem (p : Int) : sanitizePage (sanitizePage p) = sanitizePage p := by
  unfold sanitizePage
  split <;> simp

/-- Auxiliary: the perPage clamp is idempotent. -/
theorem sanitizePerPage_idem (p : Int) :
    sanitizePerPage (sanitizePerPage p) = sanitizePerPage p := by
  unfold sanitizePerPage
  split <;> simp

/-- Auxiliary: LIMIT/OFFSET semantics of `drop` then `take`. -/
theorem take_drop_getElem (l : List Book) (o k i : Nat) :
    ((l.drop o).take k)[i]? = if i < k then l[o + i]? else none := by
  by_cases h : i < k
  · rw [if_pos h, List.getElem?_take_of_lt h, List.getElem?_drop]
  · rw [if_neg h]
    exact List.getElem?_eq_none
      (le_trans (List.length_take_le _ _) (Nat.le_of_not_lt h))

/-- Auxiliary: `goInt` lands in the 64-bit machine-int range. -/
theorem goInt_bounds (n : Int) : -(2 ^ 63) ≤ goInt n ∧ goInt n < 2 ^ 63 := by
  unfold goInt
  have h63 : (2 : Int) ^ 63 = 9223372036854775808 := by norm_num
  have h64 : (2 : Int) ^ 64 = 18446744073709551616 := by norm_num
  rw [h63, h64]
  omega

/-- Auxiliary: `goInt` is the identity on representable values. -/
theorem goInt_eq_self (n : Int) (h1 : -(2 ^ 63) ≤ n) (h2 : n < 2 ^ 63) :
    goInt n = n := by
  unfold goInt
  have h63 : (2 : Int) ^ 63 = 9223372036854775808 := by norm_num
  have h64 : (2 : Int) ^ 64 = 18446744073709551616 := by norm_num
  rw [h63] at h1 h2
  rw [h63, h64]
  omega

/-- Auxiliary: a sanitized page number is at least 1 and representable. -/
theorem sanitizePage_goInt_bounds (p : Int) :
    1 ≤ sanitizePage (goInt p) ∧ sanitizePage (goInt p) < 2 ^ 63 := by
  have hb := goInt_bounds p
  have h1 : (1 : Int) < 2 ^ 63 := by norm_num
  unfold sanitizePage
  split
  · exact ⟨le_refl 1, h1⟩
  · exact ⟨by omega, hb.2⟩

/-- Auxiliary: a clamped page size is between 1 and 100. -/
theorem sanitizePerPage_bounds (p : Int) :
    1 ≤ sanitizePerPage p ∧ sanitizePerPage p ≤ 100 := by
  unfold sanitizePerPage
  split
  · exact ⟨by norm_num, by norm_num⟩
  · constructor <;> omega

/-- Auxiliary: a sanitized page number is already a machine int. -/
theorem goInt_sanitizePage (p : Int) :
    goInt (sanitizePage (goInt p)) = sanitizePage (goInt p) := by
  obtain ⟨hl, hu⟩ := sanitizePage_goInt_bounds p
  exact goInt_eq_self _ (le_trans (by norm_num) hl) hu

/-- Auxiliary: a clamped page size is already a machine int. -/
theorem goInt_sanitizePerPage (p : Int) :
    goInt (sanitizePerPage (goInt p)) = sanitizePerPage (goInt p) := by
  obtain ⟨hl, hu⟩ := sanitizePerPage_bounds (goInt p)
  exact goInt_eq_self _ (le_trans (by norm_num) hl)
    (lt_of_le_of_lt hu (by norm_num))

/-- C4 counterexample: at page = 2^59 + 1, perPage = 32 the machine-int
offset (page−1)·perPage equals 2^64 and wraps to 0, so `List` returns the
first page of this one-row catalog instead of skipping 2^64 rows (which
exceeds the row count, so an exact skip would return the empty page): the
claim's "skips exactly (page−1)×perPage rows" fails on the code. -/
theorem C4_counterexample_offset_wraps :
    repoList [sampleBook] "created_at" "desc" (2 ^ 59 + 1) 32 = .ok [sampleBook]
    ∧ goInt (((2 ^ 59 + 1 : Int) - 1) * 32) = 0
    ∧ ((2 ^ 59 + 1 : Int) - 1) * 32 = 2 ^ 64
    ∧ 1 < ((2 ^ 59 + 1 : Int) - 1) * 32 := by decide

/-- C4 amended: `List` and `Search` sanitize every input — unknown sort
column falls back to created_at, unknown direction to desc, page ≤ 0 to 1,
perPage outside (0, 100] to 25, the sanitized values always well-formed —
and whenever the machine-int product (page−1)·perPage does not overflow
int64, the query succeeds, skips exactly that many rows of the ordered
(filtered) catalog and returns at most perPage rows; when the product
overflows, the Go arithmetic wraps, and a wrapped-negative offset is
rejected by the engine as a query error — never an error of the
sanitization itself, which is total. -/
theorem C4_sanitized_pagination
    (cat : List Book) (query sortBy sortOrder : String) (page perPage : Int) :
    (sortBy ∉ sortColumns → sanitizeSortBy sortBy = "created_at")
    ∧ (¬(sortOrder = "asc" ∨ sortOrder = "desc") → sanitizeSortOrder sortOrder = "desc")
    ∧ (page ≤ 0 → sanitizePage page = 1)
    ∧ (perPage ≤ 0 ∨ perPage > 100 → sanitizePerPage perPage = 25)
    ∧ 1 ≤ sanitizePage (goInt page)
    ∧ 1 ≤ sanitizePerPage (goInt perPage)
    ∧ sanitizePerPage (goInt perPage) ≤ 100
    ∧ repoList cat sortBy sortOrder page perPage
        = repoList cat (sanitizeSortBy sortBy) (sanitizeSortOrder sortOrder)
            (sanitizePage (goInt page)) (sanitizePerPage (goInt perPage))
    ∧ repoSearch cat query sortBy sortOrder page perPage
        = repoSearch cat query (sanitizeSortBy sortBy) (sanitizeSortOrder sortOrder)
            (sanitizePage (goInt page)) (sanitizePerPage (goInt perPage))
    ∧ (∀ l, repoList cat sortBy sortOrder page perPage = .ok l →
        l.length ≤ (sanitizePerPage (goInt perPage)).toNat)
    ∧ (∀ l, repoSearch cat query sortBy sortOrder page perPage = .ok l →
        l.length ≤ (sanitizePerPage (goInt perPage)).toNat)
    ∧ ((sanitizePage (goInt page) - 1) * sanitizePerPage (goInt perPage) < 2 ^ 63 →
        repoList cat sortBy sortOrder page perPage
          = .ok (((sortBooks (sanitizeSortBy sortBy) (sanitizeSortOrder sortOrder)
                cat).drop
              (((sanitizePage (goInt page) - 1)
                * sanitizePerPage (goInt perPage)).toNat)).take
              (sanitizePerPage (goInt perPage)).toNat)
        ∧ repoSearch cat query sortBy sortOrder page perPage
          = .ok (((sortBooks (sanitizeSortBy sortBy) (sanitizeSortOrder sortOrder)
                (cat.filter (matchesQuery query))).drop
              (((sanitizePage (goInt page) - 1)
                * sanitizePerPage (goInt perPage)).toNat)).take
              (sanitizePerPage (goInt perPage)).toNat))
    ∧ ((sanitizePage (goInt page) - 1) * sanitizePerPage (goInt perPage) < 2 ^ 63 →
        ∀ l, repoList cat sortBy sortOrder page perPage = .ok l →
          ∀ i : Nat, l[i]? =
            if i < (sanitizePerPage (goInt perPage)).toNat then
              (sortBooks (sanitizeSortBy sortBy) (sanitizeSortOrder sortOrder) cat)[
                ((sanitizePage (goInt page) - 1)
                  * sanitizePerPage (goInt perPage)).toNat + i]?
            else none)
    ∧ (goInt ((sanitizePage (goInt page) - 1) * sanitizePerPage (goInt perPage)) < 0 →
        repoList cat sortBy sortOrder page perPage
          = .error (.backend "OFFSET must not be negative")) := by
  have hp := sanitizePage_goInt_bounds page
  have hpp := sanitizePerPage_bounds (goInt perPage)
  have hnn : 0 ≤ (sanitizePage (goInt page) - 1) * sanitizePerPage (goInt perPage) :=
    mul_nonneg (by linarith [hp.1]) (by linarith [hpp.1])
  refine ⟨fun h => by simp [sanitizeSortBy, h],
    fun h => by simp [sanitizeSortOrder, h],
    fun h => by simp [sanitizePage, h],
    fun h => by simp [sanitizePerPage, h],
    hp.1, hpp.1, hpp.2, ?_, ?_, ?_, ?_, ?_, ?_, ?_⟩
  · simp only [repoList]
    rw [sanitizeSortBy_idem, sanitizeSortOrder_idem, goInt_sanitizePage,
      sanitizePage_idem, goInt_sanitizePerPage, sanitizePerPage_idem]
  · simp only [repoSearch]
    rw [sanitizeSortBy_idem, sanitizeSortOrder_idem, goInt_sanitizePage,
      sanitizePage_idem, goInt_sanitizePerPage, sanitizePerPage_idem]
  · intro l hl
    simp only [repoList] at hl
    split at hl
    · exact Except.noConfusion hl
    · injection hl with h
      rw [← h]
      exact List.length_take_le _ _
  · intro l hl
    simp only [repoSearch] at hl
    split at hl
    · exact Except.noConfusion hl
    · injection hl with h
      rw [← h]
      exact List.length_take_le _ _
  · intro hov
    have hoff : goInt ((sanitizePage (goInt page) - 1) * sanitizePerPage (goInt perPage))
        = (sanitizePage (goInt page) - 1) * sanitizePerPage (goInt perPage) :=
      goInt_eq_self _ (le_trans (by norm_num) hnn) hov
    constructor
    · simp only [repoList]
      rw [hoff, if_neg (not_lt.mpr hnn)]
    · simp only [repoSearch]
      rw [hoff, if_neg (not_lt.mpr hnn)]
  · intro hov l hl i
    have hoff : goInt ((sanitizePage (goInt page) - 1) * sanitizePerPage (goInt perPage))
        = (sanitizePage (goInt page) - 1) * sanitizePerPage (goInt perPage) :=
      goInt_eq_self _ (le_trans (by norm_num) hnn) hov
    simp only [repoList] at hl
    rw [hoff, if_neg (not_lt.mpr hnn)] at hl
    injection hl with h
    rw [← h]
    exact take_drop_getElem _ _ _ i
  · intro hneg
    simp only [repoList]
    rw [if_pos hneg]

/-- C4 witness: the four fallbacks at sortBy="bogus", sortOrder="up",
page=0, perPage=0 (no overflow, so the first page comes back), and the
wrapped-negative offset at page = 2^62 + 1, perPage = 2 surfacing as the
query error. -/
theorem C4_sanitized_pagination_witness :
    sanitizeSortBy "bogus" = "created_at"
    ∧ sanitizeSortOrder "up" = "desc"
    ∧ sanitizePage 0 = 1
    ∧ sanitizePerPage 0 = 25
    ∧ repoList [sampleBook] "bogus" "up" 0 0
        = repoList [sampleBook] "created_at" "desc" 1 25
    ∧ repoList [sampleBook] "bogus" "up" 0 0 = .ok [sampleBook]
    ∧ repoList [sampleBook] "created_at" "desc" (2 ^ 62 + 1) 2
        = .error (.backend "OFFSET must not be negative") := by
  obtain ⟨h1, h2, h3, h4, -, -, -, h8, -, h10, -, h12, -, -⟩ :=
    C4_sanitized_pagination [sampleBook] "q" "bogus" "up" 0 0
  have e1 := h1 (by decide)
  have e2 := h2 (by decide)
  have e3 := h3 (by decide)
  have e4 := h4 (Or.inl (by decide))
  have g3 : sanitizePage (goInt 0) = 1 := by decide
  have g4 : sanitizePerPage (goInt 0) = 25 := by decide
  have hov : (sanitizePage (goInt 0) - 1) * sanitizePerPage (goInt 0) < 2 ^ 63 := by
    decide
  have hok : repoList [sampleBook] "bogus" "up" 0 0 = .ok [sampleBook] := by
    rw [(h12 hov).1]
    decide
  obtain ⟨-, -, -, -, -, -, -, -, -, -, -, -, -, h14⟩ :=
    C4_sanitized_pagination [sampleBook] "q" "created_at" "desc" (2 ^ 62 + 1) 2
  exact ⟨e1, e2, e3, e4, by rw [h8, e1, e2, g3, g4], hok, h14 (by decide)⟩

/-- Auxiliary: a storage write never changes the catalog. -/
theorem storageWrite_catalog (ok : Bool) (st : St) (path : String) :
    ((storageWrite ok st path).2).catalog = st.catalog := by
  unfold storageWrite
  split <;> rfl

/-- Auxiliary: a failed storage write leaves the state untouched. -/
theorem storageWrite_some (ok : Bool) (st : St) (path : String) (e : KErr) (st1 : St)
    (h : storageWrite ok st path = (some e, st1)) : st1 = st := by
  unfold storageWrite at h
  split at h
  · simp at h
  · injection h with h1 h2
    exact h2.symm

/-- Auxiliary: a successful storage write records the key. -/
theorem storageWrite_none (ok : Bool) (st : St) (path : String) (st1 : St)
    (h : storageWrite ok st path = (none, st1)) :
    st1.catalog = st.catalog ∧ path ∈ st1.blobs := by
  unfold storageWrite at h
  split at h
  · injection h with h1 h2
    rw [← h2]
    simp
  · simp at h

/-- Auxiliary: the cover write never changes the catalog. -/
theorem writeCover_catalog (env : Env) (st : St) (c : List Nat) (bookID : String) :
    ((writeCover env st c bookID).2).catalog = st.catalog := by
  unfold writeCover
  split
  · rfl
  · split
    · rfl
    · rcases hw : storageWrite env.coverWriteOk st ("covers/" ++ bookID ++ ".jpg")
        with ⟨o, st1⟩
      have hc := storageWrite_catalog env.coverWriteOk st ("covers/" ++ bookID ++ ".jpg")
      rw [hw] at hc
      cases o <;> simpa using hc

/-- Auxiliary: the cover write never removes blob keys. -/
theorem writeCover_blobs_mono (env : Env) (st : St) (c : List Nat) (bookID : String)
    (p : String) (hp : p ∈ st.blobs) :
    p ∈ ((writeCover env st c bookID).2).blobs := by
  unfold writeCover
  split
  · exact hp
  · split
    · exact hp
    · rcases hw : storageWrite env.coverWriteOk st ("covers/" ++ bookID ++ ".jpg")
        with ⟨o, st1⟩
      have hb : p ∈ ((storageWrite env.coverWriteOk st
          ("covers/" ++ bookID ++ ".jpg")).2).blobs := by
        unfold storageWrite
        split <;> simp [hp]
      rw [hw] at hb
      cases o <;> simpa using hb

/-- Auxiliary: a failed INSERT leaves the catalog unchanged. -/
theorem repoStore_some (backendFails : Bool) (cat : List Book) (book : Book)
    (e : KErr) (cat1 : List Book)
    (h : repoStore backendFails cat book = (some e, cat1)) : cat1 = cat := by
  unfold repoStore at h
  split at h
  · injection h with h1 h2
    exact h2.symm
  · split at h
    · injection h with h1 h2
      exact h2.symm
    · injection h with h1 h2
      simp at h1

/-- Auxiliary: a successful INSERT appends exactly the one row. -/
theorem repoStore_none (backendFails : Bool) (cat : List Book) (book : Book)
    (cat1 : List Book)
    (h : repoStore backendFails cat book = (none, cat1)) : cat1 = cat ++ [book] := by
  unfold repoStore at h
  split at h
  · injection h with h1 h2
    simp at h1
  · split at h
    · injection h with h1 h2
      simp at h1
    · injection h with h1 h2
      exact h2.symm

/-- Auxiliary: with a failing store backend the INSERT always errors and
leaves the catalog unchanged. -/
theorem repoStore_fails_some (cat : List Book) (book : Book) :
    ∃ e, repoStore true cat book = (some e, cat) := by
  unfold repoStore
  split
  · exact ⟨_, rfl⟩
  · exact ⟨_, rfl⟩

/-- C6: the primary blob write strictly precedes the catalog Store call: a
failed primary write aborts with an error and no catalog row; a failed
Store call errors after the primary blob is already in the blob store; and
in every run each catalog row's primary path points at a written blob or
the row predates the call — a row referencing an unwritten blob is never
produced. -/
theorem C6_blob_write_precedes_catalog_store
    (env : Env) (st : St) (hash : String) (m : BookMetadata)
    (hmd5 : env.fileMD5 = .ok hash)
    (hmiss : st.catalog.find? (fun b => b.documentID == hash) = none)
    (hex : env.extract = .ok m)
    (hfmt : m.format ≠ "") :
    (env.primaryWriteOk = false →
      StoreBook env st
        = ((emptyBook, some (.wrapped "BookShelf - StoreBook - s.storage.Write"
            (.plain "storage write failed"))), st))
    ∧ (env.primaryWriteOk = true →
        (env.dateStr ++ "/" ++ env.bookID ++ "." ++ m.format)
          ∈ (StoreBook env st).2.blobs)
    ∧ (env.storeFails = true →
        ((StoreBook env st).1.2).isSome = true
        ∧ (StoreBook env st).2.catalog = st.catalog)
    ∧ ∀ (env2 : Env) (st2 : St), ∀ b ∈ (StoreBook env2 st2).2.catalog,
        b ∈ st2.catalog ∨ b.filePath ∈ (StoreBook env2 st2).2.blobs := by
  have hsb : StoreBook env st = ingestBook env st hash := by
    obtain ⟨e, he⟩ : ∃ e,
        repoGetByFileHash env.hashLookupFails st.catalog hash = .error e := by
      unfold repoGetByFileHash
      cases env.hashLookupFails <;> simp [hmiss]
    simp only [StoreBook, hmd5, he]
  have hfmtb : (m.format == "") = false := by simpa using hfmt
  refine ⟨?_, ?_, ?_, ?_⟩
  · intro hpw
    rw [hsb]
    simp [ingestBook, hex, hfmtb, hpw, storageWrite]
  · intro hpw
    rw [hsb]
    simp only [ingestBook, hex, hfmtb, hpw, storageWrite]
    simp only [if_true]
    rcases hw : writeCover env
        { st with blobs := st.blobs ++ [env.dateStr ++ "/" ++ env.bookID ++ "." ++ m.format] }
        m.cover env.bookID with ⟨⟨cp, o⟩, st2⟩
    have hmono := writeCover_blobs_mono env
      { st with blobs := st.blobs ++ [env.dateStr ++ "/" ++ env.bookID ++ "." ++ m.format] }
      m.cover env.bookID (env.dateStr ++ "/" ++ env.bookID ++ "." ++ m.format) (by simp)
    rw [hw] at hmono
    rcases hrs : repoStore env.storeFails st2.catalog
        (assembleBook env m hash cp (env.dateStr ++ "/" ++ env.bookID ++ "." ++ m.format))
      with ⟨os, cat3⟩
    cases os <;> simpa using hmono
  · intro hsf
    cases hpw : env.primaryWriteOk
    · rw [hsb]
      simp [ingestBook, hex, hfmtb, hpw, storageWrite]
    · rw [hsb]
      simp only [ingestBook, hex, hfmtb, hpw, storageWrite]
      simp only [if_true]
      rcases hw : writeCover env
          { st with blobs := st.blobs ++ [env.dateStr ++ "/" ++ env.bookID ++ "." ++ m.format] }
          m.cover env.bookID with ⟨⟨cp, o⟩, st2⟩
      have hcat := writeCover_catalog env
        { st with blobs := st.blobs ++ [env.dateStr ++ "/" ++ env.bookID ++ "." ++ m.format] }
        m.cover env.bookID
      rw [hw] at hcat
      obtain ⟨e, hrs⟩ := repoStore_fails_some st2.catalog
        (assembleBook env m hash cp (env.dateStr ++ "/" ++ env.bookID ++ "." ++ m.format))
      rw [hsf, hrs]
      exact ⟨rfl, by simpa using hcat⟩
  · intro env2 st2 b hb
    cases hf : env2.fileMD5 with
    | error e =>
      simp only [StoreBook, hf] at hb ⊢
      exact Or.inl hb
    | ok hash2 =>
      cases hl : repoGetByFileHash env2.hashLookupFails st2.catalog hash2 with
      | ok found =>
        simp only [StoreBook, hf, hl] at hb ⊢
        exact Or.inl hb
      | error e =>
        simp only [StoreBook, hf, hl] at hb ⊢
        cases hx : env2.extract with
        | error e2 =>
          simp only [ingestBook, hx] at hb ⊢
          exact Or.inl hb
        | ok m2 =>
          simp only [ingestBook, hx] at hb ⊢
          by_cases hf2 : (m2.format == "") = true
          · simp only [hf2, if_true] at hb ⊢
            exact Or.inl hb
          · simp only [hf2, Bool.false_eq_true, if_false] at hb ⊢
            revert hb
            rcases hwr : storageWrite env2.primaryWriteOk st2
                (env2.dateStr ++ "/" ++ env2.bookID ++ "." ++ m2.format)
              with ⟨ow, st3⟩
            intro hb
            cases ow with
            | some e3 =>
              have hst3 : st3 = st2 := storageWrite_some _ _ _ _ _ hwr
              have hb1 : b ∈ st3.catalog := hb
              rw [hst3] at hb1
              exact Or.inl hb1
            | none =>
              obtain ⟨hcat3, hblob3⟩ := storageWrite_none _ _ _ _ hwr
              simp only at hb ⊢
              revert hb
              rcases hw2 : writeCover env2 st3 m2.cover env2.bookID with ⟨⟨cp2, o2⟩, st4⟩
              intro hb
              have hcat4 : st4.catalog = st3.catalog := by
                have := writeCover_catalog env2 st3 m2.cover env2.bookID
                rw [hw2] at this
                simpa using this
              have hblob4 : (env2.dateStr ++ "/" ++ env2.bookID ++ "." ++ m2.format)
                  ∈ st4.blobs := by
                have := writeCover_blobs_mono env2 st3 m2.cover env2.bookID _ hblob3
                rw [hw2] at this
                simpa using this
              simp only at hb ⊢
              revert hb
              rcases hrs2 : repoStore env2.storeFails st4.catalog
                  (assembleBook env2 m2 hash2 cp2
                    (env2.dateStr ++ "/" ++ env2.bookID ++ "." ++ m2.format))
                with ⟨os2, cat5⟩
              intro hb
              cases os2 with
              | some e4 =>
                have hc5 : cat5 = st4.catalog := repoStore_some _ _ _ _ _ hrs2
                have hb1 : b ∈ cat5 := hb
                rw [hc5, hcat4, hcat3] at hb1
                exact Or.inl hb1
              | none =>
                have hc5 : cat5 = st4.catalog ++ [assembleBook env2 m2 hash2 cp2
                    (env2.dateStr ++ "/" ++ env2.bookID ++ "." ++ m2.format)] :=
                  repoStore_none _ _ _ _ hrs2
                have hb1 : b ∈ cat5 := hb
                rw [hc5] at hb1
                rcases List.mem_append.mp hb1 with hbl | hbr
                · rw [hcat4, hcat3] at hbl
                  exact Or.inl hbl
                · have hbb : b = assembleBook env2 m2 hash2 cp2
                      (env2.dateStr ++ "/" ++ env2.bookID ++ "." ++ m2.format) := by
                    simpa using hbr
                  subst hbb
                  exact Or.inr hblob4

/-- C6 witness: a failed primary write leaves the state untouched; with a
failing catalog backend the run errors with the primary blob written and no
catalog row added. -/
theorem C6_blob_write_precedes_catalog_store_witness :
    StoreBook { sampleEnv with fileMD5 := .ok "h2", primaryWriteOk := false } sampleSt
      = ((emptyBook, some (.wrapped "BookShelf - StoreBook - s.storage.Write"
          (.plain "storage write failed"))), sampleSt)
    ∧ ("2026/10/11" ++ "/" ++ "id2" ++ "." ++ "epub")
        ∈ (StoreBook { sampleEnv with fileMD5 := .ok "h2", storeFails := true }
            sampleSt).2.blobs
    ∧ ((StoreBook { sampleEnv with fileMD5 := .ok "h2", storeFails := true }
          sampleSt).1.2).isSome = true
    ∧ (StoreBook { sampleEnv with fileMD5 := .ok "h2", storeFails := true }
          sampleSt).2.catalog = sampleSt.catalog := by
  have hA := C6_blob_write_precedes_catalog_store
    { sampleEnv with fileMD5 := .ok "h2", primaryWriteOk := false } sampleSt
    "h2" sampleMeta rfl (by decide) rfl (by decide)
  have hB := C6_blob_write_precedes_catalog_store
    { sampleEnv with fileMD5 := .ok "h2", storeFails := true } sampleSt
    "h2" sampleMeta rfl (by decide) rfl (by decide)
  exact ⟨hA.1 rfl, hB.2.1 rfl, (hB.2.2.1 rfl).1, (hB.2.2.1 rfl).2⟩
